import Mathlib

/-!
Verification development for the simplified RIP daemon in `src/RIP/rip.py`.

The Python source is shallowly embedded below.  Machine bytes are `Nat`
values with explicit `% 256` masks exactly where the source masks
(`& 255`, `>> 8 & 255`); fallible operations return `Option` or a
dedicated result type; object mutation is modelled by explicit state
passing, where mutating the object returned by a first-match lookup is
rendered as updating the first matching element of the list.

Timers (`threading.Timer`) have no behaviour of their own in the
embedding: the garbage-collection timer list is kept as the list of
pending `(neighbor, dest)` pairs, the triggered-update timers as a
counter of activations, and timeout-timer activations as a log, so that
the table-updating code can be followed line by line.
-/

/-- `INFINITE_METRIC = 16` from the top of `rip.py`. -/
def INFINITE_METRIC : Nat := 16

/-- One RIP entry, from `ResponseMessage.RIPEntry.__init__`: the fields
`address_family_identifier`, `dest_router_id`, `next_hop`, `metric`. -/
structure RIPEntry where
  address_family_identifier : Nat
  dest_router_id : Nat
  next_hop : Nat
  metric : Nat
deriving DecidableEq, Inhabited

/-- A response message, from `ResponseMessage.__init__`: header fields
`command`, `version`, `sending_router_id` and the body `rip_entries`. -/
structure ResponseMessage where
  command : Nat
  version : Nat
  sending_router_id : Nat
  rip_entries : List RIPEntry
deriving DecidableEq, Inhabited

/-- The 20 bytes one entry contributes in `ResponseMessage.encode`
(lines 98-133 of `rip.py`).  Byte 13 is written from
`entry.dest_router_id >> 8 & 255` in the source (line 123), not from
`entry.next_hop`. -/
def encodeEntry (e : RIPEntry) : List Nat :=
  [e.address_family_identifier % 256, 0,
   0, 0,
   e.dest_router_id % 256, e.dest_router_id / 256 % 256, 0, 0,
   0, 0, 0, 0,
   e.next_hop % 256, e.dest_router_id / 256 % 256, 0, 0,
   e.metric % 256, 0, 0, 0]

/-- `ResponseMessage.encode`: a 4-byte header followed by 20 bytes per
entry.  `message[0] = self.command` and `message[1] = self.version` are
unmasked byte-array writes; every message the source builds has
`command = version = 2`, so the values fit a byte. -/
def ResponseMessage.encode (m : ResponseMessage) : List Nat :=
  m.command :: m.version :: (m.sending_router_id % 256) ::
    (m.sending_router_id / 256 % 256) :: (m.rip_entries.map encodeEntry).flatten

/-- The entry-parsing loop of `ResponseMessage.decode` (lines 163-194):
`n` entries remain to be read and `s` is `start_index`.  Out-of-range
reads are rendered with `getD _ 0`; for every call the decoder makes,
the indices are in range (the caller parses `(len - 4) / 20` entries),
so the default is never consulted on inputs of length at least 4.
The redundant second disjunct of the metric check reproduces line 188
(`entry.metric > INFINITE_METRIC or entry.next_hop < 1`). -/
def decodeEntriesFrom (data : List Nat) : Nat → Nat → Option (List RIPEntry)
  | 0, _ => some []
  | n + 1, s =>
    let afi := data.getD s 0
    if afi ≠ 2 then none
    else
      let dest := data.getD (s + 4) 0 + data.getD (s + 5) 0 * 256
      if dest > 64000 ∨ dest < 1 then none
      else
        let nh := data.getD (s + 12) 0 + data.getD (s + 13) 0 * 256
        if nh > 64000 ∨ nh < 1 then none
        else
          let met := data.getD (s + 16) 0
          if met > INFINITE_METRIC ∨ nh < 1 then none
          else
            match decodeEntriesFrom data n (s + 20) with
            | none => none
            | some rest => some (⟨afi, dest, nh, met⟩ :: rest)

/-- `ResponseMessage.decode` (lines 138-196): check command, version and
sending router id, then parse `(len(data) - 4) // 20` entries.  `none`
renders `return False`; `some m` renders `return True` with the fields
the method stored on `self`. -/
def ResponseMessage.decode (data : List Nat) : Option ResponseMessage :=
  let command := data.getD 0 0
  if command ≠ 2 then none
  else
    let version := data.getD 1 0
    if version ≠ 2 then none
    else
      let sid := data.getD 2 0 + data.getD 3 0 * 256
      if sid > 64000 ∨ sid < 1 then none
      else
        match decodeEntriesFrom data ((data.length - 4) / 20) 4 with
        | none => none
        | some es => some ⟨command, version, sid, es⟩

/-- C1: the claim says entry byte 13 is the high byte of `next_hop`; in
the source it is the high byte of `dest_router_id` (line 123).  At the
entry `(dest = 1, next_hop = 300, metric = 4)` the encoder emits 0 at
byte 13 of the entry (absolute byte 17), while the high byte of
`next_hop = 300` is 1. -/
theorem encode_byte13_is_dest_high_byte :
    (ResponseMessage.encode ⟨2, 2, 7, [⟨2, 1, 300, 4⟩]⟩).getD 17 0 = 1 / 256 % 256 ∧
    (ResponseMessage.encode ⟨2, 2, 7, [⟨2, 1, 300, 4⟩]⟩).getD 17 0 ≠ 300 / 256 % 256 := by
  decide

/-- C2: decode-after-encode is not the identity on well-formed messages.
The message with sending router id 1 and the single entry
`(AFI 2, dest = 256, next_hop = 1, metric = 4)` — every field in its
valid range — round-trips to `next_hop = 257`, because encode writes
entry byte 13 from the destination id. -/
theorem decode_encode_not_id :
    ResponseMessage.decode (ResponseMessage.encode ⟨2, 2, 1, [⟨2, 256, 1, 4⟩]⟩) =
      some ⟨2, 2, 1, [⟨2, 256, 257, 4⟩]⟩ ∧ (257 : Nat) ≠ 1 := by
  decide

/-- A route, from `Route.__init__`: `src`, `dest`, `neighbor` (the
next hop) and `metric`.  The per-route `timeout_timer` handle carries no
table data; its activations are logged on the daemon state instead. -/
structure Route where
  src : Nat
  dest : Nat
  neighbor : Nat
  metric : Nat
deriving DecidableEq, Inhabited

/-- The data a `Connection` holds about its neighbor
(`Connection.__init__`): this router's id, the neighbor's id and the
configured link metric.  The sockets and ports play no part in the
message-building code embedded here. -/
structure Connection where
  sending_router_id : Nat
  neighbor_router_id : Nat
  metric : Nat
deriving DecidableEq, Inhabited

/-- The per-route body of the sending loop in
`Connection.send_routing_table_entries_to_neighbor` (lines 279-287):
build a fresh copy `sending_route` of the table route and poison the
copy's metric when the route was learned via the recipient and does not
lead to the recipient. -/
def sendOneRoute (c : Connection) (route : Route) : Route :=
  let sending_route : Route := ⟨route.src, route.dest, route.neighbor, route.metric⟩
  if route.neighbor = c.neighbor_router_id ∧ route.dest ≠ c.neighbor_router_id then
    { sending_route with metric := INFINITE_METRIC }
  else sending_route

/-- `ResponseMessage.RIPEntry.__init__(route)`: AFI 2, destination from
`route.dest`, next hop from `route.neighbor`, metric from
`route.metric`. -/
def routeToEntry (r : Route) : RIPEntry :=
  ⟨2, r.dest, r.neighbor, r.metric⟩

/-- `ResponseMessage.add_rip_entry`: append the entry built from the
route. -/
def add_rip_entry (m : ResponseMessage) (r : Route) : ResponseMessage :=
  { m with rip_entries := m.rip_entries ++ [routeToEntry r] }

/-- `message_count` as computed at the top of
`send_routing_table_entries_to_neighbor` (lines 271-273). -/
def message_count (routes : List Route) : Nat :=
  routes.length / 25 + if routes.length % 25 ≠ 0 then 1 else 0

/-- The body of iteration `i` of the outer sending loop (lines 275-295):
a fresh `ResponseMessage(self.sending_router_id)`, then
`for index in range(i * 25, len(routes))` — note the loop runs to the
END of the list, not to `i * 25 + 25` — and finally the appended
direct-link route `(dest = neighbor, next_hop = neighbor,
metric = link metric)`. -/
def buildMessage (c : Connection) (routes : List Route) (i : Nat) : ResponseMessage :=
  let msg := (routes.drop (i * 25)).foldl
    (fun m route => add_rip_entry m (sendOneRoute c route))
    ⟨2, 2, c.sending_router_id, []⟩
  add_rip_entry msg ⟨c.sending_router_id, c.neighbor_router_id, c.neighbor_router_id, c.metric⟩

/-- The messages built by `send_routing_table_entries_to_neighbor`, one
per iteration of the outer loop, in order. -/
def buildMessages (c : Connection) (routes : List Route) : List ResponseMessage :=
  (List.range (message_count routes)).map (buildMessage c routes)

/-- `Connection.send_routing_table_entries_to_neighbor` as a state
transformer: the encoded datagrams it passes to `sendto`, paired with
the routing-table list as the caller sees it after the call.  The
source never writes to `routes` or to any `Route` object in it — each
iteration copies the route into the fresh `sending_route` and mutates
only the copy — so the post-state component is the input list itself. -/
def send_routing_table_entries_to_neighbor (c : Connection) (routes : List Route) :
    List (List Nat) × List Route :=
  ((buildMessages c routes).map ResponseMessage.encode, routes)

/-- Appending one entry, seen on the `rip_entries` field. -/
theorem add_rip_entry_entries (m : ResponseMessage) (r : Route) :
    (add_rip_entry m r).rip_entries = m.rip_entries ++ [routeToEntry r] := rfl

/-- Entries accumulated by the inner loop: folding `add_rip_entry` over
a list appends one entry per route. -/
theorem foldl_add_rip_entry (c : Connection) (l : List Route) (m : ResponseMessage) :
    (l.foldl (fun m route => add_rip_entry m (sendOneRoute c route)) m).rip_entries =
      m.rip_entries ++ l.map (fun r => routeToEntry (sendOneRoute c r)) := by
  induction l generalizing m with
  | nil => simp
  | cons r rs ih =>
    rw [List.foldl_cons, ih, List.map_cons, add_rip_entry_entries, List.append_assoc]
    rfl

/-- The entry list of the `i`-th message: transformed table routes from
index `i * 25` on, then the direct-link entry. -/
theorem buildMessage_rip_entries (c : Connection) (routes : List Route) (i : Nat) :
    (buildMessage c routes i).rip_entries =
      ((routes.drop (i * 25)).map (fun r => routeToEntry (sendOneRoute c r))) ++
        [routeToEntry ⟨c.sending_router_id, c.neighbor_router_id, c.neighbor_router_id,
          c.metric⟩] := by
  show (add_rip_entry _ _).rip_entries = _
  rw [add_rip_entry_entries, foldl_add_rip_entry]
  rfl

set_option maxRecDepth 8000 in
/-- C3: with 26 routes the source computes `message_count = 2`, but the
first message contains all 26 routes (the inner loop is not capped at
25) plus the direct-link entry: 27 entries, a 544-byte datagram, where
the claim allows at most 26 entries (at most 524 bytes). -/
theorem first_datagram_overfull_at_26_routes :
    ((buildMessages ⟨1, 2, 5⟩ (List.replicate 26 ⟨1, 3, 2, 4⟩)).getD 0 default).rip_entries.length
        = 27 ∧
    (ResponseMessage.encode
        ((buildMessages ⟨1, 2, 5⟩ (List.replicate 26 ⟨1, 3, 2, 4⟩)).getD 0 default)).length
        = 544 ∧
    (buildMessages ⟨1, 2, 5⟩ (List.replicate 26 ⟨1, 3, 2, 4⟩)).length = 2 ∧
    26 < 27 := by
  exact ⟨rfl, rfl, rfl, by decide⟩

/-- C6: split horizon with poisoned reverse, on each message the sender
builds.  Message `i` consists of the (transformed) table routes it
covers followed by exactly one direct-link entry
`(dest = N, next_hop = N, configured link metric)`; a transformed table
entry carries metric `INFINITE_METRIC` exactly when its route was
learned via the recipient `N` and does not lead to `N`, and carries the
stored metric unchanged otherwise. -/
theorem split_horizon_poisoned_reverse (c : Connection) (routes : List Route) (i : Nat)
    (hi : i < (buildMessages c routes).length) :
    ((buildMessages c routes).getD i default).rip_entries =
      ((routes.drop (i * 25)).map (fun r => routeToEntry (sendOneRoute c r))) ++
        [routeToEntry ⟨c.sending_router_id, c.neighbor_router_id, c.neighbor_router_id, c.metric⟩] ∧
    (∀ r : Route, r.neighbor = c.neighbor_router_id ∧ r.dest ≠ c.neighbor_router_id →
      routeToEntry (sendOneRoute c r) = ⟨2, r.dest, r.neighbor, INFINITE_METRIC⟩) ∧
    (∀ r : Route, ¬ (r.neighbor = c.neighbor_router_id ∧ r.dest ≠ c.neighbor_router_id) →
      routeToEntry (sendOneRoute c r) = ⟨2, r.dest, r.neighbor, r.metric⟩) ∧
    routeToEntry ⟨c.sending_router_id, c.neighbor_router_id, c.neighbor_router_id, c.metric⟩ =
      ⟨2, c.neighbor_router_id, c.neighbor_router_id, c.metric⟩ := by
  refine ⟨?_, ?_, ?_, rfl⟩
  · have h1 : (buildMessages c routes).getD i default = buildMessage c routes i := by
      rw [List.getD_eq_getElem _ _ hi]
      simp [buildMessages]
    rw [h1, buildMessage_rip_entries]
  · intro r hr
    simp [sendOneRoute, routeToEntry, hr]
  · intro r hr
    simp [sendOneRoute, routeToEntry, if_neg hr]

/-- C6 witness: the theorem instantiated at a concrete connection,
table and message index. -/
theorem split_horizon_poisoned_reverse_witness :
    ((buildMessages ⟨1, 2, 5⟩ [⟨1, 3, 2, 4⟩, ⟨1, 2, 2, 4⟩]).getD 0 default).rip_entries =
      (([⟨1, 3, 2, 4⟩, ⟨1, 2, 2, 4⟩] : List Route).drop (0 * 25)).map
          (fun r => routeToEntry (sendOneRoute ⟨1, 2, 5⟩ r)) ++
        [routeToEntry ⟨1, 2, 2, 5⟩] ∧
    (∀ r : Route, r.neighbor = 2 ∧ r.dest ≠ 2 →
      routeToEntry (sendOneRoute ⟨1, 2, 5⟩ r) = ⟨2, r.dest, r.neighbor, INFINITE_METRIC⟩) ∧
    (∀ r : Route, ¬ (r.neighbor = 2 ∧ r.dest ≠ 2) →
      routeToEntry (sendOneRoute ⟨1, 2, 5⟩ r) = ⟨2, r.dest, r.neighbor, r.metric⟩) ∧
    routeToEntry ⟨1, 2, 2, 5⟩ = ⟨2, 2, 2, 5⟩ :=
  split_horizon_poisoned_reverse ⟨1, 2, 5⟩ [⟨1, 3, 2, 4⟩, ⟨1, 2, 2, 4⟩] 0 (by decide)

/-- C10: sending the table to a neighbor leaves the routing table
unchanged — the post-state list is the input list, and in particular
every route keeps its `dest`, `neighbor` (via) and `metric` fields. -/
theorem send_preserves_routing_table (c : Connection) (routes : List Route) :
    (send_routing_table_entries_to_neighbor c routes).2 = routes ∧
    (send_routing_table_entries_to_neighbor c routes).2.map Route.dest = routes.map Route.dest ∧
    (send_routing_table_entries_to_neighbor c routes).2.map Route.neighbor =
      routes.map Route.neighbor ∧
    (send_routing_table_entries_to_neighbor c routes).2.map Route.metric =
      routes.map Route.metric :=
  ⟨rfl, rfl, rfl, rfl⟩

/-- The routing-relevant state of a `RIPDaemon`: this router's id, the
configured `outputs` triples `(port, metric, neighbor id)`, the `routes`
list, and the timer bookkeeping.  `garbage_collection_timers` keeps the
`(neighbor, dest)` pair of each pending garbage-collection timer,
`triggered_update_count` counts `activate_triggered_updates_timer`
calls, and `timeout_resets` logs each timeout-timer (re)activation,
most recent first. -/
structure DaemonState where
  id : Nat
  outputs : List (Nat × Nat × Nat)
  routes : List Route
  garbage_collection_timers : List (Nat × Nat)
  triggered_update_count : Nat
  timeout_resets : List (Nat × Nat)
deriving DecidableEq

/-- `RIPDaemon.is_valid_router_id`. -/
def is_valid_router_id (router_id : Nat) : Bool :=
  decide (router_id ≤ 64000) && decide (0 < router_id)

/-- `RIPDaemon.is_valid_metric`. -/
def is_valid_metric (metric : Nat) : Bool :=
  decide (1 ≤ metric) && decide (metric ≤ INFINITE_METRIC)

/-- `RIPDaemon.is_neighbor`: the connections are built one per output
triple, with `neighbor_router_id = outputs[index][2]`, so the scan over
`self.connections` is a scan over the outputs' neighbor ids. -/
def is_neighbor (s : DaemonState) (router_id : Nat) : Bool :=
  s.outputs.any (fun o => o.2.2 == router_id)

/-- `RIPDaemon.get_metric_to_neighbor`: first output triple whose
neighbor id matches, returning its metric. -/
def get_metric_to_neighbor (s : DaemonState) (neighbor_router_id : Nat) : Option Nat :=
  match s.outputs.find? (fun o => o.2.2 == neighbor_router_id) with
  | some o => some o.2.1
  | none => none

/-- `RIPDaemon.get_route_destinating_to`: first route with the given
destination. -/
def get_route_destinating_to (s : DaemonState) (dest : Nat) : Option Route :=
  s.routes.find? (fun r => r.dest == dest)

/-- Mutating the object found by a first-match scan, rendered as
updating the first list element satisfying the predicate. -/
def updateFirstWith (p : Route → Bool) (f : Route → Route) : List Route → List Route
  | [] => []
  | r :: rs => if p r then f r :: rs else r :: updateFirstWith p f rs

/-- The removal done by
`RIPDaemon.invalidate_garbage_collection_timer`: cancel and drop the
first `(neighbor, dest)` match, if any. -/
def removeFirstTimer (n d : Nat) : List (Nat × Nat) → List (Nat × Nat)
  | [] => []
  | t :: ts => if t.1 == n && t.2 == d then ts else t :: removeFirstTimer n d ts

/-- `RIPDaemon.invalidate_garbage_collection_timer`. -/
def invalidate_garbage_collection_timer (s : DaemonState) (neighbor_id destination_id : Nat) :
    DaemonState :=
  { s with garbage_collection_timers :=
      removeFirstTimer neighbor_id destination_id s.garbage_collection_timers }

/-- `RIPDaemon.reset_timeout_timer`: if some route matches
`(neighbor, dest)`, re-arm its timeout timer (logged) and stop a
pending garbage-collection timer for it; otherwise do nothing. -/
def reset_timeout_timer (s : DaemonState) (neighbor_id destination_id : Nat) : DaemonState :=
  if s.routes.any (fun r => r.neighbor == neighbor_id && r.dest == destination_id) then
    invalidate_garbage_collection_timer
      { s with timeout_resets := (neighbor_id, destination_id) :: s.timeout_resets }
      neighbor_id destination_id
  else s

/-- `RIPDaemon.add_new_route`: clear a pending garbage-collection timer
for `(neighbor, destination)`, then append a fresh route with an armed
timeout timer. -/
def add_new_route (s : DaemonState) (neighbor destination metric : Nat) : DaemonState :=
  let s1 := invalidate_garbage_collection_timer s neighbor destination
  { s1 with
    routes := s1.routes ++ [⟨s1.id, destination, neighbor, metric⟩],
    timeout_resets := (neighbor, destination) :: s1.timeout_resets }

/-- `RIPDaemon.activate_garbage_collection_timer`: no new deletion
process if one is already pending for this `(neighbor, destination)`. -/
def activate_garbage_collection_timer (s : DaemonState) (neighbor destination : Nat) :
    DaemonState :=
  if s.garbage_collection_timers.any (fun t => t.1 == neighbor && t.2 == destination) then s
  else { s with garbage_collection_timers :=
      s.garbage_collection_timers ++ [(neighbor, destination)] }

/-- `RIPDaemon.activate_triggered_updates_timer`: one more pending
triggered-update timer. -/
def activate_triggered_updates_timer (s : DaemonState) : DaemonState :=
  { s with triggered_update_count := s.triggered_update_count + 1 }

/-- `RIPDaemon.timeout_timer_callback`: poison every route matching
`(neighbor, destination)` (the loop has no break), then fire a
triggered update and start garbage collection. -/
def timeout_timer_callback (s : DaemonState) (neighbor destination : Nat) : DaemonState :=
  let s1 := { s with routes := s.routes.map (fun r =>
      if r.neighbor == neighbor && r.dest == destination
      then { r with metric := INFINITE_METRIC } else r) }
  activate_garbage_collection_timer (activate_triggered_updates_timer s1) neighbor destination

/-- `RIPDaemon.garbage_collection_timer_callback`: keep only the routes
not matching `(neighbor, destination)`.  The source leaves the expired
timer's entry in `garbage_collection_timers`, and so does the model. -/
def garbage_collection_timer_callback (s : DaemonState) (neighbor destination : Nat) :
    DaemonState :=
  { s with routes := s.routes.filter (fun r => !(r.neighbor == neighbor && r.dest == destination)) }

/-- The `route.dest == self.id and route.neighbor == self.id` branch of
`RIPDaemon.update_routing_table` (lines 663-682): the advertised entry
is read as the neighbor's view of the direct link back to us.  Look up
the table route with `dest == route.src`; add it if absent; if present
via that neighbor, refresh when finite; otherwise adopt the neighbor
when strictly cheaper.  The final reset uses `route.dest` (line 682),
exactly as the source does. -/
def direct_link_rebind (s : DaemonState) (route : Route) : DaemonState :=
  match get_route_destinating_to s route.src with
  | none => add_new_route s route.src route.src route.metric
  | some rt =>
    if rt.neighbor == route.src then
      if route.metric ≠ INFINITE_METRIC then
        let rs1 := updateFirstWith (fun r => r.dest == route.src)
          (fun r => { r with metric := route.metric }) s.routes
        reset_timeout_timer { s with routes := rs1 } route.src route.src
      else s
    else
      if route.metric < rt.metric then
        let rs1 := updateFirstWith (fun r => r.dest == route.src)
          (fun r => { r with neighbor := route.src, metric := route.metric }) s.routes
        reset_timeout_timer { s with routes := rs1 } route.src route.dest
      else s

/-- The body of the per-entry loop of `RIPDaemon.update_routing_table`
(lines 640-714).  The `get_metric_to_neighbor = none` case cannot be
reached once `is_neighbor` has passed (both scan the same configured
outputs); in Python it would raise a `TypeError`. -/
def update_one_route (s : DaemonState) (route : Route) : DaemonState :=
  if is_neighbor s route.src then
    if is_valid_router_id route.neighbor then
      if is_valid_router_id route.dest then
        if is_valid_metric route.metric then
          if route.dest == s.id then
            if route.neighbor == s.id then direct_link_rebind s route else s
          else
            match get_metric_to_neighbor s route.src with
            | none => s
            | some metric_to_neighbor =>
              let metric := min (metric_to_neighbor + route.metric) INFINITE_METRIC
              match get_route_destinating_to s route.dest with
              | none =>
                if metric ≠ INFINITE_METRIC then add_new_route s route.src route.dest metric
                else s
              | some rt =>
                if rt.neighbor == route.src then
                  if rt.metric ≠ INFINITE_METRIC then
                    let rs1 := updateFirstWith (fun r => r.dest == route.dest)
                      (fun r => { r with metric := metric }) s.routes
                    let s1 : DaemonState := { s with routes := rs1 }
                    if metric == INFINITE_METRIC then
                      activate_garbage_collection_timer (activate_triggered_updates_timer s1)
                        rt.neighbor rt.dest
                    else reset_timeout_timer s1 route.src route.dest
                  else s
                else
                  if metric < rt.metric then
                    let rs1 := updateFirstWith (fun r => r.dest == route.dest)
                      (fun r => { r with neighbor := route.src, metric := metric }) s.routes
                    reset_timeout_timer { s with routes := rs1 } route.src route.dest
                  else s
        else s
      else s
    else s
  else s

/-- `RIPDaemon.update_routing_table`: process the received entries in
order. -/
def update_routing_table (s : DaemonState) (routes : List Route) : DaemonState :=
  routes.foldl update_one_route s

/-- The state after `RIPDaemon.__init__` (lines 366-374): one route per
output triple, `dest = neighbor = outputs[index][2]`,
`metric = outputs[index][1]`, each with an armed timeout timer; no
garbage-collection or triggered-update timers yet. -/
def initial_daemon_state (id : Nat) (outputs : List (Nat × Nat × Nat)) : DaemonState :=
  { id := id
    outputs := outputs
    routes := outputs.map (fun o => ⟨id, o.2.2, o.2.2, o.2.1⟩)
    garbage_collection_timers := []
    triggered_update_count := 0
    timeout_resets := outputs.map (fun o => (o.2.2, o.2.2)) }

/-- The daemon states reachable from startup by any interleaving of the
entry-processing loop, timeout-timer callbacks and garbage-collection
callbacks (`add_new_route` runs only inside `update_routing_table`,
guarded by a failed destination lookup, as in the source). -/
inductive Reachable (id : Nat) (outputs : List (Nat × Nat × Nat)) : DaemonState → Prop where
  | init : Reachable id outputs (initial_daemon_state id outputs)
  | update (s : DaemonState) (advertised : List Route) :
      Reachable id outputs s → Reachable id outputs (update_routing_table s advertised)
  | timeout (s : DaemonState) (n d : Nat) :
      Reachable id outputs s → Reachable id outputs (timeout_timer_callback s n d)
  | collect (s : DaemonState) (n d : Nat) :
      Reachable id outputs s → Reachable id outputs (garbage_collection_timer_callback s n d)

/-- C4 counterexample: router 1 with neighbor 2 (link metric 2) holds
the poisoned route `(dest 3, via 2, metric 16)` with a pending
garbage-collection timer for `(2, 3)`.  Neighbor 2 then advertises
dest 3 with metric 1, total `min(2 + 1, 16) = 3 < 16` — yet the update
leaves the state untouched: metric stays 16, the garbage-collection
timer stays pending, no fresh route is installed. -/
theorem gc_pending_finite_update_ignored :
    update_routing_table ⟨1, [(5000, 2, 2)], [⟨1, 3, 2, 16⟩], [(2, 3)], 0, []⟩ [⟨2, 3, 3, 1⟩] =
      ⟨1, [(5000, 2, 2)], [⟨1, 3, 2, 16⟩], [(2, 3)], 0, []⟩ ∧
    min (2 + 1) INFINITE_METRIC = 3 ∧ 3 < INFINITE_METRIC := by
  decide

/-- C4 as amended: while a route's stored metric is `INFINITE_METRIC`,
any advertisement for its destination from the same neighbor — finite
or not — is ignored by the per-entry update (lines 700-702 of the
source skip the whole branch), so the table, the garbage-collection
timers, the triggered-update count and the timeout log all stay as they
were. -/
theorem same_neighbor_update_on_poisoned_route_ignored (s : DaemonState) (adv rt : Route)
    (h1 : is_neighbor s adv.src = true)
    (h2 : is_valid_router_id adv.neighbor = true)
    (h3 : is_valid_router_id adv.dest = true)
    (h4 : is_valid_metric adv.metric = true)
    (h5 : adv.dest ≠ s.id)
    (h6 : get_route_destinating_to s adv.dest = some rt)
    (h7 : rt.neighbor = adv.src)
    (h8 : rt.metric = INFINITE_METRIC) :
    update_one_route s adv = s := by
  unfold update_one_route
  rw [h1, h2, h3, h4]
  simp only [if_true]
  rw [if_neg (by simp [h5])]
  cases hmtn : get_metric_to_neighbor s adv.src with
  | none => rfl
  | some metric_to_neighbor =>
    rw [h6]
    simp [h7, h8]

/-- C4 amended, witness: the theorem applied to the counterexample
state and advertisement. -/
theorem same_neighbor_update_on_poisoned_route_ignored_witness :
    update_one_route ⟨1, [(5000, 2, 2)], [⟨1, 3, 2, 16⟩], [(2, 3)], 0, []⟩ ⟨2, 3, 3, 1⟩ =
      ⟨1, [(5000, 2, 2)], [⟨1, 3, 2, 16⟩], [(2, 3)], 0, []⟩ :=
  same_neighbor_update_on_poisoned_route_ignored _ _ ⟨1, 3, 2, 16⟩ (by decide) (by decide)
    (by decide) (by decide) (by decide) (by decide) (by decide) (by decide)

/-- C5 counterexample: router 1, neighbor 2, empty table.  Neighbor 2
advertises `(dest = 1, next_hop = 2, metric = 2)` — destination is our
own id and the advertised next hop equals `src`, so the claim says the
direct-link rebind branch runs and (the table having no route to 2)
adds `(dest 2, via 2, metric 2)`.  The source instead tests
`route.neighbor == self.id`, which fails, and ignores the entry: the
state is unchanged, while the rebind branch would have added the
route. -/
theorem rebind_branch_not_keyed_on_src :
    update_routing_table ⟨1, [(5000, 2, 2)], [], [], 0, []⟩ [⟨2, 1, 2, 2⟩] =
      ⟨1, [(5000, 2, 2)], [], [], 0, []⟩ ∧
    (direct_link_rebind ⟨1, [(5000, 2, 2)], [], [], 0, []⟩ ⟨2, 1, 2, 2⟩).routes =
      [⟨1, 2, 2, 2⟩] := by
  decide

/-- C5 as amended: for a validated entry from a configured neighbor
whose advertised destination is this router's own id, the direct-link
rebind branch runs exactly when the advertised next hop equals this
router's own id (`route.neighbor == self.id`, line 663); every other
such entry is ignored. -/
theorem rebind_branch_iff_next_hop_is_self (s : DaemonState) (adv : Route)
    (h1 : is_neighbor s adv.src = true)
    (h2 : is_valid_router_id adv.neighbor = true)
    (h3 : is_valid_router_id adv.dest = true)
    (h4 : is_valid_metric adv.metric = true)
    (h5 : adv.dest = s.id) :
    update_one_route s adv = if adv.neighbor = s.id then direct_link_rebind s adv else s := by
  unfold update_one_route
  rw [h1, h2, h3, h4]
  simp only [if_true]
  rw [if_pos (by simp [h5])]
  by_cases h : adv.neighbor = s.id
  · rw [if_pos (by simp [h]), if_pos h]
  · rw [if_neg (by simp [h]), if_neg h]

/-- C5 amended, witness: the theorem applied to a concrete state and an
entry whose next hop is this router's id. -/
theorem rebind_branch_iff_next_hop_is_self_witness :
    update_one_route ⟨1, [(5000, 2, 2)], [], [], 0, []⟩ ⟨2, 1, 1, 2⟩ =
      if (Route.mk 2 1 1 2).neighbor = (DaemonState.mk 1 [(5000, 2, 2)] [] [] 0 []).id then
        direct_link_rebind ⟨1, [(5000, 2, 2)], [], [], 0, []⟩ ⟨2, 1, 1, 2⟩
      else ⟨1, [(5000, 2, 2)], [], [], 0, []⟩ :=
  rebind_branch_iff_next_hop_is_self _ _ (by decide) (by decide) (by decide) (by decide)
    (by decide)

/-- A patch that keeps `dest` leaves the listed destinations
unchanged. -/
theorem map_dest_updateFirstWith (p : Route → Bool) (f : Route → Route)
    (hf : ∀ r, (f r).dest = r.dest) (l : List Route) :
    (updateFirstWith p f l).map Route.dest = l.map Route.dest := by
  induction l with
  | nil => rfl
  | cons r rs ih =>
    by_cases h : p r
    · simp [updateFirstWith, h, hf]
    · simp [updateFirstWith, h, ih]

/-- `reset_timeout_timer` never touches the routes list. -/
theorem reset_timeout_timer_routes (s : DaemonState) (n d : Nat) :
    (reset_timeout_timer s n d).routes = s.routes := by
  unfold reset_timeout_timer invalidate_garbage_collection_timer
  split <;> rfl

/-- `activate_garbage_collection_timer` never touches the routes
list. -/
theorem activate_gc_timer_routes (s : DaemonState) (n d : Nat) :
    (activate_garbage_collection_timer s n d).routes = s.routes := by
  unfold activate_garbage_collection_timer
  split <;> rfl

/-- The routes after `add_new_route`: the old list with the fresh route
appended. -/
theorem add_new_route_routes (s : DaemonState) (n d m : Nat) :
    (add_new_route s n d m).routes = s.routes ++ [⟨s.id, d, n, m⟩] := rfl

/-- A failed destination lookup means no route lists that
destination. -/
theorem not_mem_dest_of_lookup_none (s : DaemonState) (d : Nat)
    (h : get_route_destinating_to s d = none) : d ∉ s.routes.map Route.dest := by
  intro hd
  obtain ⟨r, hr, hrd⟩ := List.mem_map.mp hd
  have hfalse := List.find?_eq_none.mp h r hr
  simp [hrd] at hfalse

/-- Destination uniqueness is preserved by `add_new_route` when the
destination is absent. -/
theorem nodup_dest_add_new_route (s : DaemonState) (n d m : Nat)
    (h : (s.routes.map Route.dest).Nodup)
    (hd : get_route_destinating_to s d = none) :
    ((add_new_route s n d m).routes.map Route.dest).Nodup := by
  rw [add_new_route_routes]
  have hnm := not_mem_dest_of_lookup_none s d hd
  simp only [List.map_append, List.map_cons, List.map_nil]
  simp [List.nodup_append, h, hnm]

/-- Destination uniqueness is preserved by a `reset_timeout_timer`
applied after a dest-preserving first-match patch. -/
theorem nodup_reset_after_patch (s : DaemonState) (p : Route → Bool) (f : Route → Route)
    (hf : ∀ r, (f r).dest = r.dest) (n d : Nat)
    (h : (s.routes.map Route.dest).Nodup) :
    ((reset_timeout_timer { s with routes := updateFirstWith p f s.routes } n d).routes.map
      Route.dest).Nodup := by
  rw [reset_timeout_timer_routes]
  show ((updateFirstWith p f s.routes).map Route.dest).Nodup
  rw [map_dest_updateFirstWith p f hf]
  exact h

/-- Destination uniqueness is preserved by the poisoning leaf
(triggered update plus garbage collection) applied after a
dest-preserving first-match patch. -/
theorem nodup_gc_after_patch (s : DaemonState) (p : Route → Bool) (f : Route → Route)
    (hf : ∀ r, (f r).dest = r.dest) (n d : Nat)
    (h : (s.routes.map Route.dest).Nodup) :
    ((activate_garbage_collection_timer
        (activate_triggered_updates_timer { s with routes := updateFirstWith p f s.routes })
        n d).routes.map Route.dest).Nodup := by
  rw [activate_gc_timer_routes]
  show ((updateFirstWith p f s.routes).map Route.dest).Nodup
  rw [map_dest_updateFirstWith p f hf]
  exact h

/-- Destination uniqueness is preserved by the direct-link rebind
branch. -/
theorem nodup_dest_direct_link_rebind (s : DaemonState) (route : Route)
    (h : (s.routes.map Route.dest).Nodup) :
    ((direct_link_rebind s route).routes.map Route.dest).Nodup := by
  unfold direct_link_rebind
  repeat' split
  all_goals try exact h
  all_goals try (apply nodup_dest_add_new_route <;> assumption)
  all_goals refine nodup_reset_after_patch s _ _ ?_ _ _ h
  all_goals exact fun r => rfl

/-- Destination uniqueness is preserved by each iteration of the
per-entry update loop. -/
theorem nodup_dest_update_one_route (s : DaemonState) (route : Route)
    (h : (s.routes.map Route.dest).Nodup) :
    ((update_one_route s route).routes.map Route.dest).Nodup := by
  unfold update_one_route
  dsimp only
  repeat' split
  all_goals try exact h
  all_goals try exact nodup_dest_direct_link_rebind s route h
  all_goals try (apply nodup_dest_add_new_route <;> assumption)
  all_goals try (refine nodup_reset_after_patch s _ _ ?_ _ _ h; exact fun r => rfl)
  all_goals refine nodup_gc_after_patch s _ _ ?_ _ _ h
  all_goals exact fun r => rfl

/-- Destination uniqueness is preserved by a whole received frame. -/
theorem nodup_dest_update_routing_table (l : List Route) (s : DaemonState)
    (h : (s.routes.map Route.dest).Nodup) :
    ((update_routing_table s l).routes.map Route.dest).Nodup := by
  induction l generalizing s with
  | nil => exact h
  | cons r rs ih => exact ih _ (nodup_dest_update_one_route s r h)

/-- Destination uniqueness is preserved by a timeout expiry: only
metrics change. -/
theorem nodup_dest_timeout_callback (s : DaemonState) (n d : Nat)
    (h : (s.routes.map Route.dest).Nodup) :
    ((timeout_timer_callback s n d).routes.map Route.dest).Nodup := by
  unfold timeout_timer_callback
  rw [activate_gc_timer_routes]
  show ((s.routes.map _).map Route.dest).Nodup
  rw [List.map_map]
  have : (Route.dest ∘ fun r =>
      if (r.neighbor == n && r.dest == d) = true
      then { r with metric := INFINITE_METRIC } else r) = Route.dest := by
    funext r
    by_cases hr : (r.neighbor == n && r.dest == d) = true <;> simp [Function.comp, hr]
  rw [this]
  exact h

/-- Destination uniqueness is preserved by garbage collection: the
routes list only shrinks. -/
theorem nodup_dest_collection_callback (s : DaemonState) (n d : Nat)
    (h : (s.routes.map Route.dest).Nodup) :
    ((garbage_collection_timer_callback s n d).routes.map Route.dest).Nodup := by
  unfold garbage_collection_timer_callback
  exact h.sublist (List.Sublist.map Route.dest (List.filter_sublist s.routes))

/-- C7 as amended: provided the configured outputs name pairwise
distinct neighbor ids, every state reachable from startup by any
sequence of frame updates, timeout expiries and garbage collections
lists each destination at most once. -/
theorem at_most_one_route_per_dest (id : Nat) (outputs : List (Nat × Nat × Nat))
    (hdist : (outputs.map (fun o => o.2.2)).Nodup)
    (s : DaemonState) (h : Reachable id outputs s) :
    (s.routes.map Route.dest).Nodup := by
  induction h with
  | init =>
    have : ((initial_daemon_state id outputs).routes.map Route.dest) =
        outputs.map (fun o => o.2.2) := by
      simp [initial_daemon_state, List.map_map]
    rw [this]
    exact hdist
  | update s advertised hr ih => exact nodup_dest_update_routing_table advertised s ih
  | timeout s n d hr ih => exact nodup_dest_timeout_callback s n d ih
  | collect s n d hr ih => exact nodup_dest_collection_callback s n d ih

/-- C7 amended, witness: the theorem applied at startup state of a
router with the single neighbor 2. -/
theorem at_most_one_route_per_dest_witness :
    (([(5000, 1, 2)] : List (Nat × Nat × Nat)).map (fun o => o.2.2)).Nodup ∧
    ((initial_daemon_state 1 [(5000, 1, 2)]).routes.map Route.dest).Nodup :=
  ⟨by decide, at_most_one_route_per_dest 1 [(5000, 1, 2)] (by decide) _ Reachable.init⟩

/-- Python `str.strip()` whitespace, as used on config lines: space,
tab, newline, carriage return, vertical tab and form feed. -/
def isPySpace (c : Char) : Bool :=
  c == ' ' || c == '\t' || c == '\n' || c == '\r' || c == '\x0b' || c == '\x0c'

/-- Strip characters satisfying `p` from both ends of a string, as
Python `str.strip` / `str.strip(',')` do. -/
def pyStripWith (p : Char → Bool) (s : String) : String :=
  String.mk (((s.data.dropWhile p).reverse.dropWhile p).reverse)

/-- Python `line.strip()`. -/
def pyStrip (s : String) : String := pyStripWith isPySpace s

/-- Python `token.strip(',')`. -/
def stripCommas (s : String) : String := pyStripWith (fun c => c == ',') s

/-- Worker for Python `str.split()`: split on whitespace runs, dropping
empty fields; `acc` holds the current field, reversed. -/
def pySplitAux : List Char → List Char → List String
  | [], acc => if acc.isEmpty then [] else [String.mk acc.reverse]
  | c :: cs, acc =>
    if isPySpace c then
      if acc.isEmpty then pySplitAux cs []
      else String.mk acc.reverse :: pySplitAux cs []
    else pySplitAux cs (c :: acc)

/-- Python `line.split()`. -/
def pySplit (s : String) : List String := pySplitAux s.data []

/-- Worker for Python `str.split('-')`: split at every dash, keeping
empty fields. -/
def splitDashAux : List Char → List Char → List String
  | [], acc => [String.mk acc.reverse]
  | c :: cs, acc =>
    if c == '-' then String.mk acc.reverse :: splitDashAux cs []
    else splitDashAux cs (c :: acc)

/-- Python `token.split('-')`. -/
def splitDash (s : String) : List String := splitDashAux s.data []

/-- Python `str.isdecimal()`, restricted to ASCII digits: the source
would also accept other Unicode decimal digits, which no claim
exercises. -/
def isDecimalStr (s : String) : Bool :=
  !s.data.isEmpty && s.data.all Char.isDigit

/-- Python `int(...)` on a string of decimal digits. -/
def pyInt (s : String) : Nat :=
  s.data.foldl (fun n c => n * 10 + (c.toNat - 48)) 0

/-- The content lines the loader keeps (lines 429-434 of `rip.py`):
each raw line stripped, dropping the blank ones and those starting
with `#`. -/
def contentLines (raw_lines : List String) : List String :=
  (raw_lines.map pyStrip).filter
    (fun l => !l.data.isEmpty && !(l.data.headD ' ' == '#'))

/-- Outcome of `RIPDaemon.load_config_file` on a file's lines.
`crash` is an uncaught `ValueError` (an `outputs` token that does not
split into exactly three dash-separated parts makes the tuple
unpacking on line 478 raise); `failure` is any `return (False, ...)`;
`ok` carries the parsed router id, input ports and output triples. -/
inductive ConfigResult where
  | crash : ConfigResult
  | failure : ConfigResult
  | ok : Nat → List Nat → List (Nat × Nat × Nat) → ConfigResult
deriving DecidableEq

/-- The input-ports loop (lines 458-463): strip commas, require a
decimal in `[1024, 64000]`, collect.  `none` is the `return False`
taken on the first bad token. -/
def parseInputPorts : List String → Option (List Nat)
  | [] => some []
  | tok :: rest =>
    let port := stripCommas tok
    if isDecimalStr port = false ∨ pyInt port < 1024 ∨ pyInt port > 64000 then none
    else
      match parseInputPorts rest with
      | none => none
      | some ps => some (pyInt port :: ps)

/-- The outputs loop (lines 477-492): strip commas, split on dashes
into exactly `port-metric-neighbor` (anything else raises, `crash`),
then range-check the three numbers, with the port also required to
avoid the input ports. -/
def parseOutputs (input_ports : List Nat) : List String → ConfigResult
  | [] => .ok 0 [] []
  | tok :: rest =>
    match splitDash (stripCommas tok) with
    | [port, metric, neighbor_id] =>
      if isDecimalStr port = false ∨ pyInt port < 1024 ∨ pyInt port > 64000 ∨
          pyInt port ∈ input_ports then .failure
      else if isDecimalStr metric = false ∨ pyInt metric < 1 ∨ pyInt metric > 16 then .failure
      else if isDecimalStr neighbor_id = false ∨ pyInt neighbor_id < 1 ∨
          pyInt neighbor_id > 64000 then .failure
      else
        match parseOutputs input_ports rest with
        | .crash => .crash
        | .failure => .failure
        | .ok x y os => .ok x y ((pyInt port, pyInt metric, pyInt neighbor_id) :: os)
    | _ => .crash

/-- `RIPDaemon.load_config_file` (lines 414-499) on the file's raw
lines (the missing-file branch is outside the model).  Checks in
source order: at least three content lines, the `router-id` line, the
`input-ports` line with distinct ports, the `outputs` line, and
finally as many outputs as input ports. -/
def load_config_file (raw_lines : List String) : ConfigResult :=
  let lines := contentLines raw_lines
  if lines.length < 3 then .failure
  else
    let first_line_data := pySplit (lines.getD 0 "")
    if first_line_data.length < 2 ∨ (first_line_data.getD 0 "" == "router-id") = false then
      .failure
    else
      let rid := first_line_data.getD 1 ""
      if isDecimalStr rid = false ∨ pyInt rid < 1 ∨ pyInt rid > 64000 then .failure
      else
        let second_line_data := pySplit (lines.getD 1 "")
        if second_line_data.length < 2 ∨
            (second_line_data.getD 0 "" == "input-ports") = false then .failure
        else
          match parseInputPorts (second_line_data.drop 1) with
          | none => .failure
          | some input_ports =>
            if ¬ input_ports.Nodup then .failure
            else
              let third_line_data := pySplit (lines.getD 2 "")
              if third_line_data.length < 2 ∨
                  (third_line_data.getD 0 "" == "outputs") = false then .failure
              else
                match parseOutputs input_ports (third_line_data.drop 1) with
                | .crash => .crash
                | .failure => .failure
                | .ok _ _ outputs =>
                  if input_ports.length ≠ outputs.length then .failure
                  else .ok (pyInt rid) input_ports outputs

/-- C8 counterexample: a file with FOUR content lines — a valid
three-line configuration followed by a junk line — is accepted by the
loader (only `len(lines) < 3` is checked, line 437), where the claim
requires failure for any count other than exactly three. -/
theorem load_config_accepts_four_content_lines :
    load_config_file ["router-id 1", "input-ports 6110", "outputs 5000-1-2", "junk"] =
      ConfigResult.ok 1 [6110] [(5000, 1, 2)] ∧
    (contentLines ["router-id 1", "input-ports 6110", "outputs 5000-1-2", "junk"]).length = 4 := by
  decide

/-- C7 counterexample: the loader accepts a configuration whose two
outputs name the same neighbor id 2, and the startup state built from
it violates at-most-one-route-per-dest from the very first state: its
routes list destinations `[2, 2]`. -/
theorem duplicate_neighbor_ids_defeat_dest_uniqueness :
    load_config_file ["router-id 1", "input-ports 6110 6111", "outputs 5000-1-2, 5001-3-2"] =
      ConfigResult.ok 1 [6110, 6111] [(5000, 1, 2), (5001, 3, 2)] ∧
    Reachable 1 [(5000, 1, 2), (5001, 3, 2)]
      (initial_daemon_state 1 [(5000, 1, 2), (5001, 3, 2)]) ∧
    ¬ ((initial_daemon_state 1 [(5000, 1, 2), (5001, 3, 2)]).routes.map Route.dest).Nodup :=
  ⟨by decide, Reachable.init, by decide⟩

/-- Every port collected by the input-ports loop is in range. -/
theorem parseInputPorts_sound (toks : List String) (ps : List Nat)
    (h : parseInputPorts toks = some ps) :
    ∀ p ∈ ps, 1024 ≤ p ∧ p ≤ 64000 := by
  induction toks generalizing ps with
  | nil =>
    unfold parseInputPorts at h
    cases h
    simp
  | cons t ts ih =>
    unfold parseInputPorts at h
    split at h
    · dsimp only at h
      split at h <;> simp at h
    · rename_i qs hrec
      dsimp only at h
      split at h
      · simp at h
      · rename_i hcond
        push_neg at hcond
        cases h
        intro p hp
        rcases List.mem_cons.mp hp with hp | hp
        · subst hp
          exact ⟨hcond.2.1, hcond.2.2⟩
        · exact ih qs hrec p hp

/-- Every triple collected by the outputs loop satisfies the range
checks, and its port avoids the input ports. -/
theorem parseOutputs_sound (input_ports : List Nat) (toks : List String)
    (x : Nat) (y : List Nat) (os : List (Nat × Nat × Nat))
    (h : parseOutputs input_ports toks = .ok x y os) :
    ∀ o ∈ os, 1024 ≤ o.1 ∧ o.1 ≤ 64000 ∧ o.1 ∉ input_ports ∧ 1 ≤ o.2.1 ∧ o.2.1 ≤ 16 ∧
      1 ≤ o.2.2 ∧ o.2.2 ≤ 64000 := by
  induction toks generalizing x y os with
  | nil =>
    unfold parseOutputs at h
    cases h
    simp
  | cons t ts ih =>
    unfold parseOutputs at h
    repeat' split at h
    all_goals simp at h
    all_goals
      rename_i h1 h2 h3 rc x2 y2 qs hrec
    all_goals
      obtain ⟨hx, hy, hos⟩ := h
    all_goals
      push_neg at h1 h2 h3
    all_goals subst hos
    all_goals intro o ho
    all_goals rcases List.mem_cons.mp ho with ho | ho
    · subst ho
      exact ⟨h1.2.1, h1.2.2.1, h1.2.2.2, h2.2.1, h2.2.2, h3.2.1, h3.2.2⟩
    · exact ih _ _ qs hrec o ho

/-- C8 as amended: acceptance characterised from the returned values.
If the loader accepts, the file has at least three content lines
(extra lines beyond the third are ignored), the three parsed lines are
tagged `router-id`, `input-ports`, `outputs` in order, and the parsed
values satisfy all the stated range, distinctness and one-to-one
constraints; contrapositively, a file whose first three content lines
violate any of these is rejected. -/
theorem load_config_ok_only_if (raw : List String) (id : Nat) (ports : List Nat)
    (outs : List (Nat × Nat × Nat))
    (h : load_config_file raw = .ok id ports outs) :
    3 ≤ (contentLines raw).length ∧
    (pySplit ((contentLines raw).getD 0 "")).getD 0 "" = "router-id" ∧
    (pySplit ((contentLines raw).getD 1 "")).getD 0 "" = "input-ports" ∧
    (pySplit ((contentLines raw).getD 2 "")).getD 0 "" = "outputs" ∧
    1 ≤ id ∧ id ≤ 64000 ∧
    ports.Nodup ∧ (∀ p ∈ ports, 1024 ≤ p ∧ p ≤ 64000) ∧
    outs.length = ports.length ∧
    (∀ o ∈ outs, 1024 ≤ o.1 ∧ o.1 ≤ 64000 ∧ o.1 ∉ ports ∧ 1 ≤ o.2.1 ∧ o.2.1 ≤ 16 ∧
      1 ≤ o.2.2 ∧ o.2.2 ≤ 64000) := by
  unfold load_config_file at h
  dsimp only at h
  repeat' split at h
  all_goals simp at h
  rename_i hlen hline1 hrid hline2 o1 ips hips hnd hline3 rc xx yy qos houts hleneq
  obtain ⟨hid, hps, hos⟩ := h
  subst hid hps hos
  push_neg at hlen hline1 hrid hline2 hline3
  refine ⟨hlen, eq_of_beq (Bool.ne_false_iff.mp hline1.2),
    eq_of_beq (Bool.ne_false_iff.mp hline2.2),
    eq_of_beq (Bool.ne_false_iff.mp hline3.2),
    by simpa using hrid.2.1, by simpa using hrid.2.2, not_not.mp hnd,
    parseInputPorts_sound _ _ hips,
    (not_ne_iff.mp hleneq).symm,
    parseOutputs_sound _ _ _ _ _ houts⟩

/-- C8 amended, witness: the theorem applied to a concrete accepted
three-line configuration. -/
theorem load_config_ok_only_if_witness :
    3 ≤ (contentLines ["router-id 1", "input-ports 6110", "outputs 5000-1-2"]).length ∧
    (pySplit ((contentLines ["router-id 1", "input-ports 6110",
      "outputs 5000-1-2"]).getD 0 "")).getD 0 "" = "router-id" ∧
    (pySplit ((contentLines ["router-id 1", "input-ports 6110",
      "outputs 5000-1-2"]).getD 1 "")).getD 0 "" = "input-ports" ∧
    (pySplit ((contentLines ["router-id 1", "input-ports 6110",
      "outputs 5000-1-2"]).getD 2 "")).getD 0 "" = "outputs" ∧
    1 ≤ 1 ∧ (1 : Nat) ≤ 64000 ∧
    ([6110] : List Nat).Nodup ∧ (∀ p ∈ ([6110] : List Nat), 1024 ≤ p ∧ p ≤ 64000) ∧
    ([(5000, 1, 2)] : List (Nat × Nat × Nat)).length = ([6110] : List Nat).length ∧
    (∀ o ∈ ([(5000, 1, 2)] : List (Nat × Nat × Nat)), 1024 ≤ o.1 ∧ o.1 ≤ 64000 ∧
      o.1 ∉ ([6110] : List Nat) ∧ 1 ≤ o.2.1 ∧ o.2.1 ≤ 16 ∧ 1 ≤ o.2.2 ∧ o.2.2 ≤ 64000) :=
  load_config_ok_only_if ["router-id 1", "input-ports 6110", "outputs 5000-1-2"]
    1 [6110] [(5000, 1, 2)] (by decide)

/-- The per-entry validity checks of the decode loop at byte offset
`s`, read off the raw buffer: AFI byte 2, destination and next-hop ids
in `[1, 64000]`, metric byte at most 16. -/
def entryOk (data : List Nat) (s : Nat) : Bool :=
  decide (data.getD s 0 = 2) &&
  decide (1 ≤ data.getD (s + 4) 0 + data.getD (s + 5) 0 * 256) &&
  decide (data.getD (s + 4) 0 + data.getD (s + 5) 0 * 256 ≤ 64000) &&
  decide (1 ≤ data.getD (s + 12) 0 + data.getD (s + 13) 0 * 256) &&
  decide (data.getD (s + 12) 0 + data.getD (s + 13) 0 * 256 ≤ 64000) &&
  decide (data.getD (s + 16) 0 ≤ INFINITE_METRIC)

/-- When every entry passes its checks, the decode loop returns one
parsed entry per 20-byte slot. -/
theorem decodeEntriesFrom_ok (data : List Nat) (n : Nat) :
    ∀ s, (∀ i, i < n → entryOk data (s + 20 * i) = true) →
    ∃ es, decodeEntriesFrom data n s = some es ∧ es.length = n := by
  induction n with
  | zero => exact fun s _ => ⟨[], rfl, rfl⟩
  | succ n ih =>
    intro s h
    have h0 := h 0 (Nat.succ_pos n)
    simp only [Nat.mul_zero, Nat.add_zero, entryOk, Bool.and_eq_true, decide_eq_true_eq] at h0
    obtain ⟨⟨⟨⟨⟨h1, h2⟩, h3⟩, h4⟩, h5⟩, h6⟩ := h0
    have hrest : ∀ i, i < n → entryOk data (s + 20 + 20 * i) = true := by
      intro i hi
      have hh := h (i + 1) (Nat.succ_lt_succ hi)
      rw [show s + 20 * (i + 1) = s + 20 + 20 * i by ring] at hh
      exact hh
    obtain ⟨es, hes, hlen⟩ := ih (s + 20) hrest
    refine ⟨⟨data.getD s 0, data.getD (s + 4) 0 + data.getD (s + 5) 0 * 256,
      data.getD (s + 12) 0 + data.getD (s + 13) 0 * 256, data.getD (s + 16) 0⟩ :: es,
      ?_, by simp [hlen]⟩
    unfold decodeEntriesFrom
    dsimp only
    rw [if_neg (by simpa using h1), if_neg (by omega), if_neg (by omega), if_neg (by omega), hes]

/-- `getD` looks through `take` for indices below the cut. -/
theorem getD_take (l : List Nat) (T i : Nat) (h : i < T) :
    (l.take T).getD i 0 = l.getD i 0 := by
  simp [List.getD, List.getElem?_take_of_lt h]

/-- The decode loop never reads a byte at or beyond `s + 20 * n`. -/
theorem decodeEntriesFrom_take (data : List Nat) (n : Nat) :
    ∀ s T, s + 20 * n ≤ T →
    decodeEntriesFrom (data.take T) n s = decodeEntriesFrom data n s := by
  induction n with
  | zero => intro s T _; rfl
  | succ n ih =>
    intro s T hT
    unfold decodeEntriesFrom
    dsimp only
    rw [getD_take _ _ _ (by omega), getD_take _ _ _ (by omega), getD_take _ _ _ (by omega),
      getD_take _ _ _ (by omega), getD_take _ _ _ (by omega), getD_take _ _ _ (by omega),
      ih (s + 20) T (by omega)]

/-- Truncating the buffer after the last complete entry does not change
the decode result: up to 19 trailing bytes are ignored. -/
theorem decode_take_trailing (data : List Nat) (h4 : 4 ≤ data.length) :
    ResponseMessage.decode (data.take (4 + 20 * ((data.length - 4) / 20))) =
      ResponseMessage.decode data := by
  have hmul : (data.length - 4) / 20 * 20 ≤ data.length - 4 := Nat.div_mul_le_self _ _
  set k := (data.length - 4) / 20 with hk
  set T := 4 + 20 * k with hT
  have hTle : T ≤ data.length := by omega
  have hlen : (data.take T).length = T := by
    rw [List.length_take]; omega
  unfold ResponseMessage.decode
  rw [hlen]
  have e0 := getD_take data T 0 (by omega)
  have e1 := getD_take data T 1 (by omega)
  have e2 := getD_take data T 2 (by omega)
  have e3 := getD_take data T 3 (by omega)
  have ek : (T - 4) / 20 = k := by
    rw [hT, Nat.add_sub_cancel_left, Nat.mul_div_cancel_left _ (by norm_num)]
  have ee : decodeEntriesFrom (data.take T) ((T - 4) / 20) 4 = decodeEntriesFrom data k 4 := by
    rw [ek]
    exact decodeEntriesFrom_take data k 4 T (by omega)
  rw [e0, e1, e2, e3, ee, hk]

/-- C9 as amended: for a buffer of length at least 4 whose header
passes (command 2, version 2, sending id in `[1, 64000]`) and whose
`(len - 4) / 20` complete 20-byte entries each pass the per-entry
checks, decode succeeds with exactly `(len - 4) / 20` parsed entries —
zero for a bare 4-byte header — and the result is unchanged by
dropping the up-to-19 trailing bytes after the last complete entry. -/
theorem decode_parses_quotient_entries (data : List Nat) (h4 : 4 ≤ data.length)
    (hcmd : data.getD 0 0 = 2) (hver : data.getD 1 0 = 2)
    (hsid1 : 1 ≤ data.getD 2 0 + data.getD 3 0 * 256)
    (hsid2 : data.getD 2 0 + data.getD 3 0 * 256 ≤ 64000)
    (hent : ∀ i, i < (data.length - 4) / 20 → entryOk data (4 + 20 * i) = true) :
    (∃ es, ResponseMessage.decode data =
        some ⟨2, 2, data.getD 2 0 + data.getD 3 0 * 256, es⟩ ∧
        es.length = (data.length - 4) / 20) ∧
    ResponseMessage.decode data =
      ResponseMessage.decode (data.take (4 + 20 * ((data.length - 4) / 20))) := by
  constructor
  · obtain ⟨es, hes, hlen⟩ := decodeEntriesFrom_ok data ((data.length - 4) / 20) 4 hent
    refine ⟨es, ?_, hlen⟩
    unfold ResponseMessage.decode
    dsimp only
    rw [if_neg (by simpa using hcmd), if_neg (by simpa using hver), if_neg (by omega), hes, hcmd, hver]
  · exact (decode_take_trailing data h4).symm

/-- C9 counterexample: a 24-byte buffer with a fully valid header
(command 2, version 2, sending id 1) and one complete 20-byte entry
whose AFI byte is 0 is REJECTED, where the claim says every buffer of
length at least 4 with valid header fields decodes successfully with
`(len - 4) / 20` entries. -/
theorem decode_rejects_valid_header_bad_entry :
    ResponseMessage.decode ([2, 2, 1, 0] ++ List.replicate 20 0) = none ∧
    ([2, 2, 1, 0] ++ List.replicate 20 0).length = 24 ∧ (24 - 4) / 20 = 1 := by
  decide

/-- C9 amended, witness: a 27-byte buffer — header, one valid entry
`(AFI 2, dest 5, next hop 6, metric 3)`, and 3 trailing junk bytes —
decodes to exactly one entry, unchanged when the junk is dropped. -/
theorem decode_parses_quotient_entries_witness :
    (∃ es, ResponseMessage.decode
        [2, 2, 1, 0, 2, 0, 0, 0, 5, 0, 0, 0, 0, 0, 0, 0, 6, 0, 0, 0, 3, 0, 0, 0, 9, 9, 9] =
        some ⟨2, 2, 1, es⟩ ∧ es.length = 1) ∧
    ResponseMessage.decode
        [2, 2, 1, 0, 2, 0, 0, 0, 5, 0, 0, 0, 0, 0, 0, 0, 6, 0, 0, 0, 3, 0, 0, 0, 9, 9, 9] =
      ResponseMessage.decode
        ([2, 2, 1, 0, 2, 0, 0, 0, 5, 0, 0, 0, 0, 0, 0, 0, 6, 0, 0, 0, 3, 0, 0, 0,
          9, 9, 9].take 24) :=
  decode_parses_quotient_entries
    [2, 2, 1, 0, 2, 0, 0, 0, 5, 0, 0, 0, 0, 0, 0, 0, 6, 0, 0, 0, 3, 0, 0, 0, 9, 9, 9]
    (by decide) (by decide) (by decide) (by decide) (by decide) (by decide)
